import Mathlib

/-!
Verification development for a single-page quiz/study application.

The data model and operations below are shallow embeddings of the
source files: the type declarations follow src/unnamed/part_000, the
persistence service (DatabaseService) follows src/unnamed/part_001, and
the session controller plus SRS scheduler follow src/App.tsx.

JavaScript numbers are modelled as exact rationals; JavaScript objects
used as string-keyed maps are modelled as association lists whose update
operation mirrors object-spread semantics (an existing key is replaced
in place, a new key is appended). Date.now() and crypto.randomUUID()
are passed in as explicit parameters. Asynchronous completions (the
background remediation response) are modelled as separate functions
applied to the state at the moment the response arrives.
-/

namespace QuizApp

/-- The twelve specialties of the MedicalSpecialty enum. -/
inductive MedicalSpecialty where
  | INTERNAL_MEDICINE | SURGERY | PEDIATRICS | OB_GYN | PSYCHIATRY
  | EMERGENCY_MEDICINE | FAMILY_MEDICINE | ETHICS | ORTHOPEDICS
  | OPHTHALMOLOGY | ENT | DERMATOLOGY
  deriving DecidableEq

/-- The ExamType enum. -/
inductive ExamType where
  | STEP_2_CK | STEP_3 | SHELF_BOARD
  deriving DecidableEq

/-- The ClinicalComplexity enum. -/
inductive ClinicalComplexity where
  | EASY | MEDIUM | HARD
  deriving DecidableEq

/-- The structured explanation attached to a Question. -/
structure Explanation where
  correct : String
  incorrect : String
  keyLearningPoint : String
  deriving DecidableEq

/-- A generated quiz question (interface Question). -/
structure Question where
  id : String
  vignette : String
  options : List String
  correctIndex : Nat
  explanation : Explanation
  tags : Option (List String)
  deriving DecidableEq

/-- The four fixed mastery-card categories. -/
inductive MasteryKind where
  | Pathophysiology | Diagnosis | Management | Differentiator
  deriving DecidableEq

/-- A derived flash card (interface MasteryCard). -/
structure MasteryCard where
  id : String
  parentId : String
  kind : MasteryKind
  front : String
  back : String
  deriving DecidableEq

/-- The active quiz session (interface QuizSession). The userAnswers
array is sparse in JavaScript; we model each slot as an Option. -/
structure QuizSession where
  questions : List Question
  currentQuestionIndex : Nat
  userAnswers : List (Option Nat)
  startTime : ℚ
  specialties : List MedicalSpecialty
  examTypes : List ExamType
  complexity : ClinicalComplexity
  topics : Option String
  skippedIds : List String
  autoReinforce : Bool
  deriving DecidableEq

/-- A per-question correctness record inside a HistoricalSession. -/
structure AnswerDetail where
  questionId : String
  isCorrect : Bool
  deriving DecidableEq

/-- A completed session record (interface HistoricalSession). The
complexity and details fields are optional in the source interface. -/
structure HistoricalSession where
  id : String
  timestamp : ℚ
  totalQuestions : Nat
  correctAnswers : Nat
  timeTakenMs : ℚ
  specialties : List MedicalSpecialty
  examTypes : List ExamType
  complexity : Option ClinicalComplexity
  details : Option (List AnswerDetail)
  deriving DecidableEq

/-- Spaced-repetition schedule state for one reviewable item. -/
structure SRSState where
  cardId : String
  nextReview : ℚ
  interval : ℚ
  ease : ℚ
  repetitions : Nat
  deriving DecidableEq

/-- The four user ratings of the SRS scheduler. -/
inductive SRSRating where
  | again | hard | good | easy
  deriving DecidableEq

/-- One week of a study plan (interface StudyWeek). -/
structure StudyWeek where
  topics : List String
  hours : ℚ
  resources : List String
  focusDescription : String
  deriving DecidableEq

/-- A study plan: a map from week label to week descriptor. -/
def StudyPlan := List (String × StudyWeek)

instance : DecidableEq StudyPlan := by
  unfold StudyPlan
  infer_instance

/-- Lifetime aggregate statistics (interface LifetimeStats). -/
structure LifetimeStats where
  totalQuestions : Nat
  totalCorrect : Nat
  totalHours : ℚ
  avgAccuracy : ℚ
  firstSessionDate : ℚ
  deriving DecidableEq

/-! ### JavaScript object maps as association lists

An object used as a string-keyed map is modelled as a list of key-value
pairs. Reading is the first matching key; writing mirrors the object
spread idiom of the source: an existing key keeps its position and gets
the new value, a missing key is appended. -/

/-- Read a key from an object map: the first matching entry. -/
def objGet : List (String × α) → String → Option α
  | [], _ => none
  | p :: m, k => if p.1 = k then some p.2 else objGet m k

/-- Write a key into an object map with object-spread semantics: an
existing key keeps its position and receives the new value, a missing
key is appended at the end. Source maps are JavaScript objects, so keys
are unique and this is exact. -/
def objSet : List (String × α) → String → α → List (String × α)
  | [], k, v => [(k, v)]
  | p :: m, k, v => if p.1 = k then (k, v) :: objSet m k v else p :: objSet m k v

/-- The characteristic equation of objGet after objSet. -/
theorem objGet_objSet (m : List (String × α)) (k : String) (v : α) (j : String) :
    objGet (objSet m k v) j = if j = k then some v else objGet m j := by
  induction m with
  | nil =>
    by_cases hj : j = k
    · simp [objSet, objGet, hj]
    · have hkj : ¬k = j := fun h => hj h.symm
      simp [objSet, objGet, hj, hkj]
  | cons p m ih =>
    by_cases hpk : p.1 = k
    · by_cases hj : j = k
      · simp [objSet, objGet, hpk, hj]
      · have hkj : ¬k = j := fun h => hj h.symm
        have hpj : ¬p.1 = j := fun h => hj (h.symm.trans hpk)
        simp [objSet, objGet, hpk, hj, hkj, hpj, ih]
    · by_cases hpj : p.1 = j
      · have hj : ¬j = k := fun h => hpk (hpj.trans h)
        simp [objSet, objGet, hpk, hpj, hj]
      · simp [objSet, objGet, hpk, hpj, ih]

theorem objGet_objSet_self (m : List (String × α)) (k : String) (v : α) :
    objGet (objSet m k v) k = some v := by
  simp [objGet_objSet]

theorem objGet_objSet_ne (m : List (String × α)) (k : String) (v : α)
    (j : String) (h : j ≠ k) :
    objGet (objSet m k v) j = objGet m j := by
  simp [objGet_objSet, h]

/-! ### SRS scheduler (updateSRS in src/App.tsx, lines 143-162) -/

/-- The fallback state used when a card has no stored schedule:
cardId, nextReview 0, interval 0, ease 2.3, repetitions 0. -/
def defaultSRS (cardId : String) : SRSState :=
  { cardId := cardId, nextReview := 0, interval := 0, ease := 23/10, repetitions := 0 }

/-- The multiplicative factor of the non-initial interval computation:
1.2 for hard, the current ease for good, ease times 1.5 otherwise. -/
def srsFactor (rating : SRSRating) (ease : ℚ) : ℚ :=
  match rating with
  | SRSRating.hard => 12/10
  | SRSRating.good => ease
  | _ => ease * (15/10)

/-- One SRS transition for a single card, mirroring the body of the
updateSRS callback. The mutable locals interval, ease, repetitions of
the source become the lets below; nextReview is computed from the new
interval, and the spread at the end preserves the cardId field. -/
def srsStep (now : ℚ) (current : SRSState) (rating : SRSRating) : SRSState :=
  let interval : ℚ :=
    if rating = SRSRating.again then 0
    else if current.repetitions = 0 then 1
    else if current.repetitions = 1 then 6
    else ((⌈current.interval * srsFactor rating current.ease⌉ : ℤ) : ℚ)
  let repetitions : Nat :=
    if rating = SRSRating.again then 0 else current.repetitions + 1
  let ease : ℚ :=
    if rating = SRSRating.again then max (13/10) (current.ease - 2/10)
    else if rating = SRSRating.hard then max (13/10) (current.ease - 15/100)
    else if rating = SRSRating.easy then current.ease + 15/100
    else current.ease
  let nextReview : ℚ := now + interval * (24 * 60 * 60 * 1000)
  { current with
      nextReview := nextReview, interval := interval,
      ease := ease, repetitions := repetitions }

/-- The full updateSRS state update on the srsStates map: read the
current entry (or the default), transition it, and write it back under
the same key. -/
def updateSRS (now : ℚ) (states : List (String × SRSState))
    (cardId : String) (rating : SRSRating) : List (String × SRSState) :=
  let current := (objGet states cardId).getD (defaultSRS cardId)
  objSet states cardId (srsStep now current rating)

/-- Iterated SRS transitions: each element of steps carries the clock
value at that rating and the rating itself. -/
def runSRS (steps : List (ℚ × SRSRating)) (s : SRSState) : SRSState :=
  steps.foldl (fun acc p => srsStep p.1 acc p.2) s

/-! ### Analytics aggregation (updateAnalytics in the database service) -/

/-- Number.toFixed(1) on a nonnegative value: round to one decimal. -/
def toFixed1 (x : ℚ) : ℚ := ((round (x * 10) : ℤ) : ℚ) / 10

/-- Placeholder entry used only to name the head of a list that is
provably nonempty. -/
def dfltHist : HistoricalSession :=
  { id := "", timestamp := 0, totalQuestions := 0, correctAnswers := 0,
    timeTakenMs := 0, specialties := [], examTypes := [],
    complexity := none, details := none }

/-- The comparator of the chronological sort in updateAnalytics. -/
def byTimestamp (a b : HistoricalSession) : Prop := a.timestamp ≤ b.timestamp

instance : DecidableRel byTimestamp := fun a b => by
  unfold byTimestamp
  infer_instance

instance : IsTotal HistoricalSession byTimestamp :=
  ⟨fun a b => le_total a.timestamp b.timestamp⟩

instance : IsTrans HistoricalSession byTimestamp :=
  ⟨fun _ _ _ h1 h2 => le_trans h1 h2⟩

/-- updateAnalytics: zeroed stats with firstSessionDate = now on an
empty history; otherwise sums of questions, correct answers and time,
hours to one decimal, rounded percentage accuracy, and the timestamp of
the head of the chronologically sorted copy of the history. -/
def updateAnalyticsStats (history : List HistoricalSession) (now : ℚ) : LifetimeStats :=
  if history.isEmpty then
    { totalQuestions := 0, totalCorrect := 0, totalHours := 0,
      avgAccuracy := 0, firstSessionDate := now }
  else
    let totalQuestions := (history.map (fun s => s.totalQuestions)).sum
    let totalCorrect := (history.map (fun s => s.correctAnswers)).sum
    let totalTimeMs := (history.map (fun s => s.timeTakenMs)).sum
    let sortedHistory := List.insertionSort byTimestamp history
    { totalQuestions := totalQuestions,
      totalCorrect := totalCorrect,
      totalHours := toFixed1 (totalTimeMs / 3600000),
      avgAccuracy := ((round (((totalCorrect : ℚ) / (totalQuestions : ℚ)) * 100) : ℤ) : ℚ),
      firstSessionDate := (sortedHistory.headD dfltHist).timestamp }

/-! ### Persistence layer (DatabaseService in src/unnamed/part_001)

The IndexedDB key-value store is modelled as one record with an Option
per named slot: none is an absent key, matching get returning null. -/

/-- The persisted key-value slots. -/
structure Store where
  history : Option (List HistoricalSession)
  bookmarks : Option (List Question)
  masteryCards : Option (List (String × List MasteryCard))
  srsStates : Option (List (String × SRSState))
  questionLibrary : Option (List (String × Question))
  studyPlan : Option StudyPlan
  lifetimeStats : Option LifetimeStats
  deriving DecidableEq

/-- The AppData payload assembled by getAllData and serialized by
backupAllData. -/
structure AppData where
  history : List HistoricalSession
  bookmarks : List Question
  masteryCards : List (String × List MasteryCard)
  srsStates : List (String × SRSState)
  questionLibrary : List (String × Question)
  studyPlan : Option StudyPlan
  lifetimeStats : LifetimeStats
  deriving DecidableEq

/-- A parsed import payload: each top-level field may be absent (or of
the wrong shape, which the source validation treats the same way). The
lifetimeStats field of a backup is parsed but never read by fullImport. -/
structure ImportPayload where
  history : Option (List HistoricalSession)
  bookmarks : Option (List Question)
  masteryCards : Option (List (String × List MasteryCard))
  srsStates : Option (List (String × SRSState))
  questionLibrary : Option (List (String × Question))
  studyPlan : Option StudyPlan
  lifetimeStats : Option LifetimeStats
  deriving DecidableEq

/-- Re-reading an exported backup yields a payload with every field
present (studyPlan stays optional: the source writes null for it). -/
def AppData.toPayload (d : AppData) : ImportPayload :=
  { history := some d.history, bookmarks := some d.bookmarks,
    masteryCards := some d.masteryCards, srsStates := some d.srsStates,
    questionLibrary := some d.questionLibrary, studyPlan := d.studyPlan,
    lifetimeStats := some d.lifetimeStats }

/-- updateAnalytics with an explicit history: computes the stats and
persists them into the lifetimeStats slot. -/
def updateAnalyticsStore (st : Store) (history : List HistoricalSession)
    (now : ℚ) : LifetimeStats × Store :=
  let stats := updateAnalyticsStats history now
  (stats, { st with lifetimeStats := some stats })

/-- getAllData: read every slot with its default, and auto-migrate the
lifetime stats if the slot is absent (recompute from history when the
history is nonempty, otherwise persist zeroed stats). Returns the
assembled AppData together with the possibly-updated store. -/
def getAllData (st : Store) (now : ℚ) : AppData × Store :=
  let history := st.history.getD []
  let bookmarks := st.bookmarks.getD []
  let masteryCards := st.masteryCards.getD []
  let srsStates := st.srsStates.getD []
  let questionLibrary := st.questionLibrary.getD []
  let studyPlan := st.studyPlan
  match st.lifetimeStats with
  | some stats =>
    ({ history := history, bookmarks := bookmarks, masteryCards := masteryCards,
       srsStates := srsStates, questionLibrary := questionLibrary,
       studyPlan := studyPlan, lifetimeStats := stats }, st)
  | none =>
    if history.isEmpty then
      let stats : LifetimeStats :=
        { totalQuestions := 0, totalCorrect := 0, totalHours := 0,
          avgAccuracy := 0, firstSessionDate := now }
      ({ history := history, bookmarks := bookmarks, masteryCards := masteryCards,
         srsStates := srsStates, questionLibrary := questionLibrary,
         studyPlan := studyPlan, lifetimeStats := stats },
       { st with lifetimeStats := some stats })
    else
      let migrated := updateAnalyticsStore st history now
      ({ history := history, bookmarks := bookmarks, masteryCards := masteryCards,
         srsStates := srsStates, questionLibrary := questionLibrary,
         studyPlan := studyPlan, lifetimeStats := migrated.1 }, migrated.2)

/-- backupAllData modulo JSON serialization: the exported payload is the
AppData record (byte-for-byte equivalence modulo key ordering of the
JSON text is equality of these records). -/
def backupAllData (st : Store) (now : ℚ) : AppData := (getAllData st now).1

/-- fullImport: validate that history and bookmarks parsed as arrays
and that the question library is present; on any failure nothing is
written and the error message of the thrown Error is returned. On
success every slot is overwritten from the payload (masteryCards,
srsStates defaulting to empty, studyPlan to null) and the lifetime
stats are recomputed from the imported history. -/
def fullImport (st : Store) (p : ImportPayload) (now : ℚ) : Store × Except String Unit :=
  match p.history with
  | none => (st, Except.error "Missing \x27history\x27 array in backup")
  | some history =>
    match p.bookmarks with
    | none => (st, Except.error "Missing \x27bookmarks\x27 array in backup")
    | some bookmarks =>
      match p.questionLibrary with
      | none => (st, Except.error "Missing \x27questionLibrary\x27 in backup")
      | some questionLibrary =>
        let st1 : Store :=
          { st with
              history := some history,
              bookmarks := some bookmarks,
              masteryCards := some (p.masteryCards.getD []),
              srsStates := some (p.srsStates.getD []),
              questionLibrary := some questionLibrary,
              studyPlan := p.studyPlan }
        ((updateAnalyticsStore st1 history now).2, Except.ok ())

/-! ### Session controller (src/App.tsx) -/

/-- The view state of the App component. -/
inductive View where
  | setup | quiz | results | bookmarks | analytics | srs
  deriving DecidableEq

/-- The React state of the App component that the session lifecycle
touches: the active session, the completed session, the currently
selected answer, and the collections named by the error-handling and
frame claims. -/
structure AppState where
  view : View
  session : Option QuizSession
  completedSession : Option QuizSession
  selectedAnswer : Option Nat
  bookmarks : List Question
  history : List HistoricalSession
  questionLibrary : List (String × Question)
  lifetimeStats : Option LifetimeStats
  deriving DecidableEq

/-- The arguments of the generateSimilarQuestions call fired by the
remediation branch of handleNext. -/
structure RemediationRequest where
  sourceQuestion : Question
  examTypes : List ExamType
  complexity : ClinicalComplexity
  count : Nat
  userFocus : Option String
  deriving DecidableEq

/-- Placeholder question used only to name list elements at indices
that are in range in every reachable state. -/
def dfltQuestion : Question :=
  { id := "", vignette := "", options := [], correctIndex := 0,
    explanation := { correct := "", incorrect := "", keyLearningPoint := "" },
    tags := none }

/-- JavaScript array element assignment a[i] = v, padding any skipped
slots with holes (undefined, modelled as none). -/
def setAt (l : List (Option Nat)) (i : Nat) (v : Nat) : List (Option Nat) :=
  (List.range (max l.length (i + 1))).map
    (fun j => if j = i then some v else l.getD j none)

/-- addToLibrary: merge questions into the library map, keeping any
entry whose identifier is already present (first write wins). -/
def addToLibrary (lib : List (String × Question)) (questions : List Question) :
    List (String × Question) :=
  questions.foldl
    (fun next q => if (objGet next q.id).isSome then next else objSet next q.id q)
    lib

/-- startQuiz after the generator call resolved: genResult is either the
error it raised or the question list it returned. An empty list throws
Error(Empty response) before any state is touched; otherwise the
questions are merged into the library and a fresh session replaces the
active one. -/
def startQuiz (st : AppState) (genResult : Except String (List Question))
    (specialties : List MedicalSpecialty) (examTypes : List ExamType)
    (complexity : ClinicalComplexity) (topics : String) (autoReinforce : Bool)
    (now : ℚ) : AppState × Except String Unit :=
  match genResult with
  | Except.error e => (st, Except.error e)
  | Except.ok questions =>
    if questions.isEmpty then (st, Except.error "Empty response")
    else
      ({ st with
          questionLibrary := addToLibrary st.questionLibrary questions,
          session := some
            { questions := questions, currentQuestionIndex := 0,
              userAnswers := [], startTime := now, specialties := specialties,
              examTypes := examTypes, complexity := complexity,
              topics := some topics, skippedIds := [],
              autoReinforce := autoReinforce },
          completedSession := none,
          view := View.quiz }, Except.ok ())

/-- The reduce in processSessionCompletion: count the recorded answers
equal to the correct index of the question at the same position. -/
def sessionCorrectCount (s : QuizSession) : Nat :=
  s.userAnswers.enum.foldl
    (fun acc p =>
      if p.2 = some ((s.questions.getD p.1 dfltQuestion).correctIndex)
      then acc + 1 else acc)
    0

/-- processSessionCompletion: build the HistoricalSession record,
prepend it to the history, and recompute and persist the lifetime
stats (dbService.saveSession followed by updateAnalytics). The session
sync layer keeps the persisted history equal to the in-memory history,
so one copy models both. -/
def processSessionCompletion (st : AppState) (finalSession : QuizSession)
    (now : ℚ) (newId : String) : AppState :=
  let correctCount := sessionCorrectCount finalSession
  let details := finalSession.questions.enum.map
    (fun p => { questionId := p.2.id,
                isCorrect := decide (finalSession.userAnswers.getD p.1 none
                  = some p.2.correctIndex) : AnswerDetail })
  let newHistoryEntry : HistoricalSession :=
    { id := newId, timestamp := now,
      totalQuestions := finalSession.questions.length,
      correctAnswers := correctCount,
      timeTakenMs := now - finalSession.startTime,
      specialties := finalSession.specialties,
      examTypes := finalSession.examTypes,
      complexity := some finalSession.complexity,
      details := some details }
  let updatedHistory := newHistoryEntry :: st.history
  { st with
      history := updatedHistory,
      lifetimeStats := some (updateAnalyticsStats updatedHistory now) }

/-- handleNext (advance): a no-op unless a session is active and an
answer is selected at the current position. Records the answer,
advances or finalizes, and returns the remediation request fired by the
reinforcement branch, if any. now is Date.now() and newId the UUID of a
new history entry. -/
def handleNext (st : AppState) (userFocus : Option String)
    (manualReinforce : Bool) (now : ℚ) (newId : String) :
    AppState × Option RemediationRequest :=
  match st.session, st.selectedAnswer with
  | none, _ => (st, none)
  | some _, none => (st, none)
  | some session, some selectedAnswer =>
    let currentIdx := session.currentQuestionIndex
    let currentQuestion := session.questions.getD currentIdx dfltQuestion
    let isCorrect := selectedAnswer = currentQuestion.correctIndex
    let updatedAnswers := setAt session.userAnswers currentIdx selectedAnswer
    let shouldReinforce := manualReinforce ||
      (!isCorrect && decide (session.userAnswers.getD currentIdx none = none)
        && session.autoReinforce)
    let nextIndex := currentIdx + 1
    let st1 :=
      if nextIndex < session.questions.length then
        { st with
            session := some { session with
              currentQuestionIndex := nextIndex, userAnswers := updatedAnswers },
            selectedAnswer := session.userAnswers.getD nextIndex none }
      else
        let finalSession := { session with userAnswers := updatedAnswers }
        let st2 := processSessionCompletion st finalSession now newId
        { st2 with
            completedSession := some finalSession,
            session := none,
            view := View.results }
    (st1,
     if shouldReinforce then
       some { sourceQuestion := currentQuestion, examTypes := session.examTypes,
              complexity := session.complexity, count := 3, userFocus := userFocus }
     else none)

/-- The then-callback of the background generateSimilarQuestions call in
handleNext, applied to the App state current when the response arrives:
an empty response returns early; otherwise the questions are merged
into the library and appended to the questions of whatever session is
active at that moment (the setSession updater returns null when no
session is active). -/
def remediationArrives (st : AppState) (remediation : List Question) : AppState :=
  if remediation.isEmpty then st
  else
    let st1 := { st with
      questionLibrary := addToLibrary st.questionLibrary remediation }
    match st1.session with
    | none => st1
    | some prev =>
      { st1 with session := some { prev with questions := prev.questions ++ remediation } }

/-- The onDiscardSession handler of the setup view: clear the session. -/
def discardSession (st : AppState) : AppState := { st with session := none }

/-! ### Theorems -/

/-- Claim C2: the per-card SRS transition. A missing entry defaults to
interval 0, ease 2.3, repetitions 0. Rating again resets repetitions
and interval to 0, drops ease by 0.2 floored at 1.3, and makes the card
due now. Any other rating yields interval 1 from repetitions 0,
interval 6 from repetitions 1, and otherwise the ceiling of the old
interval times 1.2 for hard, ease for good, or ease times 1.5 for easy;
repetitions increments; ease drops 0.15 floored at 1.3 for hard, gains
0.15 uncapped for easy, and is unchanged for good; the next review is
now plus the new interval in milliseconds per day. -/
theorem srs_transition_spec (now : ℚ) (s : SRSState) :
    ((srsStep now s SRSRating.again).repetitions = 0
      ∧ (srsStep now s SRSRating.again).interval = 0
      ∧ (srsStep now s SRSRating.again).ease = max (13/10) (s.ease - 2/10)
      ∧ (srsStep now s SRSRating.again).nextReview = now)
  ∧ (∀ r : SRSRating, r ≠ SRSRating.again →
        (srsStep now s r).repetitions = s.repetitions + 1
      ∧ (srsStep now s r).interval =
          (if s.repetitions = 0 then 1
           else if s.repetitions = 1 then 6
           else ((⌈s.interval * (if r = SRSRating.hard then 12/10
                    else if r = SRSRating.good then s.ease
                    else s.ease * (15/10))⌉ : ℤ) : ℚ))
      ∧ (srsStep now s r).ease =
          (if r = SRSRating.hard then max (13/10) (s.ease - 15/100)
           else if r = SRSRating.easy then s.ease + 15/100
           else s.ease)
      ∧ (srsStep now s r).nextReview = now + (srsStep now s r).interval * 86400000)
  ∧ (∀ (states : List (String × SRSState)) (cid : String) (r : SRSRating),
        objGet states cid = none →
        updateSRS now states cid r
          = objSet states cid (srsStep now
              { cardId := cid, nextReview := 0, interval := 0,
                ease := 23/10, repetitions := 0 } r)) := by
  refine ⟨⟨?_, ?_, ?_, ?_⟩, ?_, ?_⟩
  · simp [srsStep]
  · simp [srsStep]
  · simp [srsStep]
  · simp [srsStep]
  · intro r hr
    cases r with
    | again => exact absurd rfl hr
    | hard =>
      refine ⟨by simp [srsStep], by simp [srsStep, srsFactor], by simp [srsStep], ?_⟩
      simp only [srsStep]
      norm_num
    | good =>
      refine ⟨by simp [srsStep], by simp [srsStep, srsFactor], by simp [srsStep], ?_⟩
      simp only [srsStep]
      norm_num
    | easy =>
      refine ⟨by simp [srsStep], by simp [srsStep, srsFactor], by simp [srsStep], ?_⟩
      simp only [srsStep]
      norm_num
  · intro states cid r h
    simp [updateSRS, h, defaultSRS]

/-- Witness for C2: rating an unscheduled card good from the default
state writes the stepped default entry under its key. -/
theorem srs_transition_spec_witness :
    updateSRS 5 [] "c" SRSRating.good
      = objSet [] "c" (srsStep 5
          { cardId := "c", nextReview := 0, interval := 0,
            ease := 23/10, repetitions := 0 } SRSRating.good) :=
  (srs_transition_spec 5 (defaultSRS "c")).2.2 [] "c" SRSRating.good rfl

/-- The factor of the non-initial interval computation is nonnegative
whenever the ease is. -/
theorem srsFactor_nonneg (r : SRSRating) (ease : ℚ) (h : 0 ≤ ease) :
    0 ≤ srsFactor r ease := by
  cases r with
  | hard => norm_num [srsFactor]
  | good => exact h
  | again => exact mul_nonneg h (by norm_num)
  | easy => exact mul_nonneg h (by norm_num)

/-- One SRS step preserves the ease floor of 1.3 and the property of
the interval being a natural number of days. -/
theorem srsStep_inv (now : ℚ) (s : SRSState) (r : SRSRating)
    (h1 : 13/10 ≤ s.ease) (h2 : ∃ n : Nat, s.interval = (n : ℚ)) :
    13/10 ≤ (srsStep now s r).ease
      ∧ ∃ n : Nat, (srsStep now s r).interval = (n : ℚ) := by
  constructor
  · cases r with
    | again => simp [srsStep]
    | hard => simp [srsStep]
    | good => simpa [srsStep] using h1
    | easy =>
      simp [srsStep]
      linarith
  · by_cases hagain : r = SRSRating.again
    · exact ⟨0, by simp [srsStep, hagain]⟩
    · by_cases h0 : s.repetitions = 0
      · exact ⟨1, by simp [srsStep, hagain, h0]⟩
      · by_cases hone : s.repetitions = 1
        · exact ⟨6, by simp [srsStep, hagain, h0, hone]⟩
        · obtain ⟨n, hn⟩ := h2
          have hx : 0 ≤ s.interval * srsFactor r s.ease := by
            apply mul_nonneg
            · rw [hn]
              exact Nat.cast_nonneg n
            · exact srsFactor_nonneg r s.ease (le_trans (by norm_num) h1)
          have hc : 0 ≤ ⌈s.interval * srsFactor r s.ease⌉ := Int.ceil_nonneg hx
          refine ⟨(⌈s.interval * srsFactor r s.ease⌉).toNat, ?_⟩
          simp only [srsStep, hagain, h0, hone, if_false]
          exact_mod_cast congrArg (fun z : ℤ => (z : ℚ))
            (Int.toNat_of_nonneg hc).symm

/-- Claim C3: starting from the default schedule state, every finite
sequence of ratings (each with its own clock value) keeps the ease at
or above 1.3 and keeps the interval a nonnegative integer number of
days. -/
theorem srs_sequence_invariant (steps : List (ℚ × SRSRating)) (cid : String) :
    13/10 ≤ (runSRS steps (defaultSRS cid)).ease
      ∧ ∃ n : Nat, (runSRS steps (defaultSRS cid)).interval = (n : ℚ) := by
  have main : ∀ (l : List (ℚ × SRSRating)) (s : SRSState),
      13/10 ≤ s.ease → (∃ n : Nat, s.interval = (n : ℚ)) →
      13/10 ≤ (runSRS l s).ease ∧ ∃ n : Nat, (runSRS l s).interval = (n : ℚ) := by
    intro l
    induction l with
    | nil => intro s he hi; exact ⟨he, hi⟩
    | cons p l ih =>
      intro s he hi
      have hstep := srsStep_inv p.1 s p.2 he hi
      exact ih (srsStep p.1 s p.2) hstep.1 hstep.2
  exact main steps (defaultSRS cid) (by norm_num [defaultSRS]) ⟨0, by simp [defaultSRS]⟩

/-- Claim C7: when the generator raises or returns zero questions,
startQuiz reports the failure and returns the state exactly as it was:
no session is created and session, library, history and lifetime stats
are untouched. -/
theorem startQuiz_failure_frame (st : AppState)
    (genResult : Except String (List Question))
    (sp : List MedicalSpecialty) (et : List ExamType)
    (c : ClinicalComplexity) (t : String) (ar : Bool) (now : ℚ) :
    (∀ e, genResult = Except.error e →
        startQuiz st genResult sp et c t ar now = (st, Except.error e))
  ∧ (genResult = Except.ok [] →
        startQuiz st genResult sp et c t ar now
          = (st, Except.error "Empty response")) := by
  constructor
  · intro e he
    subst he
    rfl
  · intro he
    subst he
    rfl

/-- Witness for C7: a raised generator error leaves a concrete state
unchanged, and so does an empty question list. -/
theorem startQuiz_failure_frame_witness :
    startQuiz
      { view := View.setup, session := none, completedSession := none,
        selectedAnswer := none, bookmarks := [], history := [],
        questionLibrary := [], lifetimeStats := none }
      (Except.error "boom") [] [] ClinicalComplexity.EASY "" false 0
      = ({ view := View.setup, session := none, completedSession := none,
           selectedAnswer := none, bookmarks := [], history := [],
           questionLibrary := [], lifetimeStats := none }, Except.error "boom") :=
  (startQuiz_failure_frame _ _ [] [] ClinicalComplexity.EASY "" false 0).1 "boom" rfl

/-- An identifier already present in the library survives any merge
with its original value. -/
theorem addToLibrary_preserves (qs : List Question) :
    ∀ (lib : List (String × Question)) (i : String) (q0 : Question),
      objGet lib i = some q0 → objGet (addToLibrary lib qs) i = some q0 := by
  induction qs with
  | nil => intro lib i q0 h; exact h
  | cons q qs ih =>
    intro lib i q0 h
    have step : addToLibrary lib (q :: qs)
        = addToLibrary (if (objGet lib q.id).isSome then lib
                        else objSet lib q.id q) qs := rfl
    rw [step]
    by_cases hq : (objGet lib q.id).isSome
    · rw [if_pos hq]
      exact ih lib i q0 h
    · rw [if_neg hq]
      apply ih
      have hne : i ≠ q.id := by
        intro he
        rw [← he] at hq
        exact hq (by simp [h])
      rw [objGet_objSet_ne lib q.id q i hne]
      exact h

/-- An identifier absent from the library ends up mapped to the first
question of the batch carrying it (or stays absent when none does). -/
theorem addToLibrary_inserts (qs : List Question) :
    ∀ (lib : List (String × Question)) (i : String),
      objGet lib i = none →
      objGet (addToLibrary lib qs) i = qs.find? (fun q => q.id == i) := by
  induction qs with
  | nil => intro lib i h; exact h
  | cons q qs ih =>
    intro lib i h
    have step : addToLibrary lib (q :: qs)
        = addToLibrary (if (objGet lib q.id).isSome then lib
                        else objSet lib q.id q) qs := rfl
    rw [step]
    by_cases hq : q.id = i
    · have hqnone : objGet lib q.id = none := by rw [hq]; exact h
      rw [if_neg (by simp [hqnone])]
      have hself : objGet (objSet lib q.id q) i = some q := by
        rw [hq]
        exact objGet_objSet_self lib i q
      rw [addToLibrary_preserves qs _ i q hself]
      simp [List.find?, hq]
    · have hb : (q.id == i) = false := by
        simp [hq]
      have hfind : ((q :: qs).find? (fun q => q.id == i))
          = qs.find? (fun q => q.id == i) := by
        simp [List.find?, hb]
      rw [hfind]
      by_cases hs : (objGet lib q.id).isSome
      · rw [if_pos hs]
        exact ih lib i h
      · rw [if_neg hs]
        apply ih
        have hne : i ≠ q.id := fun he => hq he.symm
        rw [objGet_objSet_ne lib q.id q i hne]
        exact h

/-- Claim C8: merging generated questions into the library skips every
identifier already present (first write wins: the stored question is
never overwritten), and each identifier not yet present is inserted
exactly once, bound to the first question of the batch that carries it. -/
theorem addToLibrary_first_write_wins (lib : List (String × Question))
    (qs : List Question) (i : String) :
    (∀ q0, objGet lib i = some q0 → objGet (addToLibrary lib qs) i = some q0)
  ∧ (objGet lib i = none →
      objGet (addToLibrary lib qs) i = qs.find? (fun q => q.id == i)) :=
  ⟨fun q0 h => addToLibrary_preserves qs lib i q0 h,
   fun h => addToLibrary_inserts qs lib i h⟩

/-- Witness for C8: with q already stored under qw1.id, merging a batch
holding a different question with the same identifier plus a fresh one
keeps the stored question and inserts the fresh one. -/
theorem addToLibrary_first_write_wins_witness :
    objGet (addToLibrary [("a", { dfltQuestion with id := "a", vignette := "old" })]
        [{ dfltQuestion with id := "a", vignette := "new" },
         { dfltQuestion with id := "b", vignette := "fresh" }]) "a"
      = some { dfltQuestion with id := "a", vignette := "old" } :=
  (addToLibrary_first_write_wins
      [("a", { dfltQuestion with id := "a", vignette := "old" })]
      [{ dfltQuestion with id := "a", vignette := "new" },
       { dfltQuestion with id := "b", vignette := "fresh" }] "a").1
    { dfltQuestion with id := "a", vignette := "old" } rfl

/-- Claim C9: advance with no answer recorded at the current position is
a no-op: the state (position, answer array, whole session) is returned
unchanged and no remediation request is fired. -/
theorem handleNext_noop_without_answer (st : AppState) (uf : Option String)
    (mr : Bool) (now : ℚ) (newId : String) (h : st.selectedAnswer = none) :
    handleNext st uf mr now newId = (st, none) := by
  unfold handleNext
  rw [h]
  cases hs : st.session with
  | none => rfl
  | some s => rfl

/-- Witness for C9: a concrete mid-quiz state with no selected answer is
returned untouched by advance. -/
theorem handleNext_noop_without_answer_witness :
    handleNext
      { view := View.quiz,
        session := some
          { questions := [], currentQuestionIndex := 0, userAnswers := [],
            startTime := 0, specialties := [], examTypes := [],
            complexity := ClinicalComplexity.EASY, topics := none,
            skippedIds := [], autoReinforce := false },
        completedSession := none, selectedAnswer := none, bookmarks := [],
        history := [], questionLibrary := [], lifetimeStats := none }
      none false 0 "x"
      = ({ view := View.quiz,
           session := some
             { questions := [], currentQuestionIndex := 0, userAnswers := [],
               startTime := 0, specialties := [], examTypes := [],
               complexity := ClinicalComplexity.EASY, topics := none,
               skippedIds := [], autoReinforce := false },
           completedSession := none, selectedAnswer := none, bookmarks := [],
           history := [], questionLibrary := [], lifetimeStats := none }, none) :=
  handleNext_noop_without_answer _ none false 0 "x" rfl

/-- Claim C10: rating one card changes only the SRS-index entry under
that card identifier; every other key reads exactly as before, and the
cardId field of the written entry is the one already stored (or the
rated identifier when the entry is created fresh). -/
theorem updateSRS_frame (now : ℚ) (states : List (String × SRSState))
    (cardId : String) (rating : SRSRating) :
    (∀ k, k ≠ cardId →
        objGet (updateSRS now states cardId rating) k = objGet states k)
  ∧ (∀ s0, objGet states cardId = some s0 →
        (objGet (updateSRS now states cardId rating) cardId).map
            (fun e => e.cardId) = some s0.cardId)
  ∧ (objGet states cardId = none →
        (objGet (updateSRS now states cardId rating) cardId).map
            (fun e => e.cardId) = some cardId) := by
  refine ⟨?_, ?_, ?_⟩
  · intro k hk
    unfold updateSRS
    exact objGet_objSet_ne _ _ _ k hk
  · intro s0 h
    unfold updateSRS
    rw [h, Option.getD_some, objGet_objSet_self]
    rfl
  · intro h
    unfold updateSRS
    rw [h, Option.getD_none, objGet_objSet_self]
    rfl

/-- Witness for C10: rating card a leaves the entry of card b exactly as
stored, and preserves the stored cardId of the updated entry. -/
theorem updateSRS_frame_witness :
    objGet (updateSRS 0 [("a", defaultSRS "a"), ("b", defaultSRS "b")]
        "a" SRSRating.good) "b" = some (defaultSRS "b")
  ∧ (objGet (updateSRS 0 [("a", defaultSRS "a"), ("b", defaultSRS "b")]
        "a" SRSRating.good) "a").map (fun e => e.cardId) = some "a" :=
  ⟨((updateSRS_frame 0 [("a", defaultSRS "a"), ("b", defaultSRS "b")]
      "a" SRSRating.good).1 "b" (by decide)).trans rfl,
   (updateSRS_frame 0 [("a", defaultSRS "a"), ("b", defaultSRS "b")]
      "a" SRSRating.good).2.1 (defaultSRS "a") rfl⟩

/-- Claim C4: recomputing lifetime stats from an empty history yields
zeroed counts, zero accuracy and firstSessionDate = now; from a
nonempty history it yields the sums of questions and correct answers,
the summed time as hours to one decimal, the rounded percentage
accuracy, and as first-session date the minimum timestamp over all
entries, whatever order the list is stored in. -/
theorem updateAnalytics_spec (history : List HistoricalSession) (now : ℚ) :
    (history = [] → updateAnalyticsStats history now
        = { totalQuestions := 0, totalCorrect := 0, totalHours := 0,
            avgAccuracy := 0, firstSessionDate := now })
  ∧ (history ≠ [] →
        (updateAnalyticsStats history now).totalQuestions
            = (history.map (fun s => s.totalQuestions)).sum
      ∧ (updateAnalyticsStats history now).totalCorrect
            = (history.map (fun s => s.correctAnswers)).sum
      ∧ (updateAnalyticsStats history now).totalHours
            = ((round ((((history.map (fun s => s.timeTakenMs)).sum / 3600000) * 10 : ℚ)) : ℤ) : ℚ) / 10
      ∧ (updateAnalyticsStats history now).avgAccuracy
            = ((round ((100 * (((history.map (fun s => s.correctAnswers)).sum : ℕ) : ℚ)
                / (((history.map (fun s => s.totalQuestions)).sum : ℕ) : ℚ) : ℚ)) : ℤ) : ℚ)
      ∧ (updateAnalyticsStats history now).firstSessionDate
            ∈ history.map (fun s => s.timestamp)
      ∧ ∀ e ∈ history,
          (updateAnalyticsStats history now).firstSessionDate ≤ e.timestamp) := by
  constructor
  · intro h
    subst h
    rfl
  · intro h
    have hne : ¬history.isEmpty := by
      simpa [List.isEmpty_iff] using h
    obtain ⟨a, t, hsort⟩ : ∃ a t, List.insertionSort byTimestamp history = a :: t := by
      cases hs : List.insertionSort byTimestamp history with
      | nil =>
        exfalso
        have hperm := List.perm_insertionSort byTimestamp history
        rw [hs] at hperm
        exact h hperm.symm.eq_nil
      | cons a t => exact ⟨a, t, rfl⟩
    have hun : updateAnalyticsStats history now
        = { totalQuestions := (history.map (fun s => s.totalQuestions)).sum,
            totalCorrect := (history.map (fun s => s.correctAnswers)).sum,
            totalHours := toFixed1 ((history.map (fun s => s.timeTakenMs)).sum / 3600000),
            avgAccuracy := ((round (((((history.map (fun s => s.correctAnswers)).sum : ℕ) : ℚ)
                / (((history.map (fun s => s.totalQuestions)).sum : ℕ) : ℚ)) * 100) : ℤ) : ℚ),
            firstSessionDate :=
              ((List.insertionSort byTimestamp history).headD dfltHist).timestamp } := by
      unfold updateAnalyticsStats
      rw [if_neg hne]
    have hfsd : (updateAnalyticsStats history now).firstSessionDate = a.timestamp := by
      rw [hun, hsort]
      rfl
    refine ⟨by rw [hun], by rw [hun], ?_, ?_, ?_, ?_⟩
    · rw [hun]
      rfl
    · rw [hun]
      have harg : ((((history.map (fun s => s.correctAnswers)).sum : ℕ) : ℚ)
          / (((history.map (fun s => s.totalQuestions)).sum : ℕ) : ℚ)) * 100
          = 100 * (((history.map (fun s => s.correctAnswers)).sum : ℕ) : ℚ)
            / (((history.map (fun s => s.totalQuestions)).sum : ℕ) : ℚ) := by
        ring
      rw [harg]
    · rw [hfsd]
      have ha : a ∈ history := by
        have hperm := List.perm_insertionSort byTimestamp history
        rw [hsort] at hperm
        exact hperm.subset (List.mem_cons_self a t)
      exact List.mem_map_of_mem _ ha
    · intro e he
      rw [hfsd]
      have hsorted := List.sorted_insertionSort byTimestamp history
      have he2 : e ∈ List.insertionSort byTimestamp history :=
        (List.mem_insertionSort byTimestamp).mpr he
      rw [hsort] at hsorted he2
      rcases List.mem_cons.mp he2 with he3 | he3
      · rw [he3]
      · exact (List.sorted_cons.mp hsorted).1 e he3

/-- Witness for C4: on a concrete two-entry history stored
reverse-chronologically, the first-session date is the timestamp of the
chronologically earlier entry and bounds both timestamps from below. -/
theorem updateAnalytics_spec_witness :
    ([{ dfltHist with id := "s2", timestamp := 200 },
      { dfltHist with id := "s1", timestamp := 50 }]
        ≠ ([] : List HistoricalSession))
  ∧ (updateAnalyticsStats
        [{ dfltHist with id := "s2", timestamp := 200 },
         { dfltHist with id := "s1", timestamp := 50 }] 0).firstSessionDate
      ∈ [{ dfltHist with id := "s2", timestamp := 200 },
         { dfltHist with id := "s1", timestamp := 50 }].map (fun s => s.timestamp)
  ∧ ∀ e ∈ [{ dfltHist with id := "s2", timestamp := 200 },
           { dfltHist with id := "s1", timestamp := 50 }],
      (updateAnalyticsStats
        [{ dfltHist with id := "s2", timestamp := 200 },
         { dfltHist with id := "s1", timestamp := 50 }] 0).firstSessionDate
        ≤ e.timestamp :=
  ⟨by simp,
   ((updateAnalytics_spec
      [{ dfltHist with id := "s2", timestamp := 200 },
       { dfltHist with id := "s1", timestamp := 50 }] 0).2 (by simp)).2.2.2.2.1,
   ((updateAnalytics_spec
      [{ dfltHist with id := "s2", timestamp := 200 },
       { dfltHist with id := "s1", timestamp := 50 }] 0).2 (by simp)).2.2.2.2.2⟩

/-- Claim C5: fullImport rejects a payload whose history, bookmarks or
question library is missing, reporting exactly the message naming that
field and writing nothing: the store is returned exactly as it was.
When all three are present, every slot is overwritten from the payload
and the lifetime stats slot is recomputed from the imported history. -/
theorem fullImport_validation_spec (st : Store) (p : ImportPayload) (now : ℚ) :
    (p.history = none → fullImport st p now
        = (st, Except.error "Missing \x27history\x27 array in backup"))
  ∧ (∀ h, p.history = some h → p.bookmarks = none → fullImport st p now
        = (st, Except.error "Missing \x27bookmarks\x27 array in backup"))
  ∧ (∀ h b, p.history = some h → p.bookmarks = some b →
        p.questionLibrary = none → fullImport st p now
          = (st, Except.error "Missing \x27questionLibrary\x27 in backup"))
  ∧ (∀ h b q, p.history = some h → p.bookmarks = some b →
        p.questionLibrary = some q → fullImport st p now
          = ({ history := some h, bookmarks := some b,
               masteryCards := some (p.masteryCards.getD []),
               srsStates := some (p.srsStates.getD []),
               questionLibrary := some q, studyPlan := p.studyPlan,
               lifetimeStats := some (updateAnalyticsStats h now) },
             Except.ok ())) := by
  refine ⟨?_, ?_, ?_, ?_⟩
  · intro hh
    simp [fullImport, hh]
  · intro h hh hb
    simp [fullImport, hh, hb]
  · intro h b hh hb hq
    simp [fullImport, hh, hb, hq]
  · intro h b q hh hb hq
    simp [fullImport, hh, hb, hq, updateAnalyticsStore]

/-- Witness for C5: importing a concrete payload that is missing only
the bookmarks field fails with the message naming bookmarks and leaves
a concrete nonempty store exactly as it was. -/
theorem fullImport_validation_spec_witness :
    fullImport
      { history := none, bookmarks := some [dfltQuestion], masteryCards := none,
        srsStates := none, questionLibrary := some [], studyPlan := none,
        lifetimeStats := none }
      { history := some [], bookmarks := none, masteryCards := none,
        srsStates := none, questionLibrary := some [], studyPlan := none,
        lifetimeStats := none } 0
      = ({ history := none, bookmarks := some [dfltQuestion], masteryCards := none,
           srsStates := none, questionLibrary := some [], studyPlan := none,
           lifetimeStats := none },
         Except.error "Missing \x27bookmarks\x27 array in backup") :=
  (fullImport_validation_spec
      { history := none, bookmarks := some [dfltQuestion], masteryCards := none,
        srsStates := none, questionLibrary := some [], studyPlan := none,
        lifetimeStats := none }
      { history := some [], bookmarks := none, masteryCards := none,
        srsStates := none, questionLibrary := some [], studyPlan := none,
        lifetimeStats := none } 0).2.1 [] rfl rfl

/-! ### Claim C1: the remediation response guard -/

/-- Concrete one-question session whose only question is missed: the
recorded answer 1 differs from the correct index 0, and auto
reinforcement is on, so advancing both completes the session and fires
a remediation request for this question. -/
def cexQ1 : Question :=
  { dfltQuestion with
      id := "q1", vignette := "v1", options := ["a", "b"], correctIndex := 0 }

/-- The question of the second, freshly started session. -/
def cexQ2 : Question := { dfltQuestion with id := "q2", vignette := "v2" }

/-- The remediation question generated for the missed cexQ1. -/
def cexQ3 : Question := { dfltQuestion with id := "q3", vignette := "v3" }

/-- App state on the last question of the first session, answer 1
selected (incorrect), auto-remediation enabled. -/
def cexApp0 : AppState :=
  { view := View.quiz,
    session := some
      { questions := [cexQ1], currentQuestionIndex := 0, userAnswers := [],
        startTime := 0, specialties := [], examTypes := [],
        complexity := ClinicalComplexity.EASY, topics := none,
        skippedIds := [], autoReinforce := true },
    completedSession := none, selectedAnswer := some 1, bookmarks := [],
    history := [], questionLibrary := [], lifetimeStats := none }

/-- Counterexample to claim C1: the remediation callback guards only by
the presence of an active session, not by session identity. Advancing
the final missed question of the first session (started at time 0)
fires a remediation request and clears the session; a brand-new session
is then started at time 20 with the single question cexQ2; when the
stale response [cexQ3] for the first session arrives, it is appended to
the new session, whose question list becomes [cexQ2, cexQ3] even though
its missed question belonged to the discarded session. -/
theorem remediation_cross_session_leak :
    (handleNext cexApp0 none false 10 "h1").2
        = some { sourceQuestion := cexQ1, examTypes := [],
                 complexity := ClinicalComplexity.EASY, count := 3,
                 userFocus := none }
  ∧ ((handleNext cexApp0 none false 10 "h1").1).session = none
  ∧ (remediationArrives
        (startQuiz (handleNext cexApp0 none false 10 "h1").1
          (Except.ok [cexQ2]) [] [] ClinicalComplexity.EASY "" false 20).1
        [cexQ3]).session
      = some { questions := [cexQ2, cexQ3], currentQuestionIndex := 0,
               userAnswers := [], startTime := 20, specialties := [],
               examTypes := [], complexity := ClinicalComplexity.EASY,
               topics := some "", skippedIds := [], autoReinforce := false } :=
  ⟨rfl, rfl, rfl⟩

/-- Claim C1 amended: the response guard is by presence of an active
session only. A response arriving when no session is active is dropped
and never resurrects a cleared or completed session; an empty response
changes nothing; but a nonempty response arriving while any session is
active - including one started after the triggering session was
discarded or completed - has its questions appended to that session. -/
theorem remediation_presence_guard (st : AppState) (remediation : List Question) :
    (st.session = none → (remediationArrives st remediation).session = none)
  ∧ (remediation = [] → remediationArrives st remediation = st)
  ∧ (∀ s, st.session = some s → remediation ≠ [] →
      (remediationArrives st remediation).session
        = some { s with questions := s.questions ++ remediation }) := by
  refine ⟨?_, ?_, ?_⟩
  · intro h
    by_cases he : remediation.isEmpty
    · simp [remediationArrives, he, h]
    · simp [remediationArrives, he, h]
  · intro h
    subst h
    rfl
  · intro s hs hne
    have he : ¬remediation.isEmpty := by
      simpa [List.isEmpty_iff] using hne
    simp [remediationArrives, he, hs]

/-- Witness for the amended C1: a concrete nonempty response arriving
with no active session leaves the session cleared. -/
theorem remediation_presence_guard_witness :
    (remediationArrives
      { view := View.setup, session := none, completedSession := none,
        selectedAnswer := none, bookmarks := [], history := [],
        questionLibrary := [], lifetimeStats := none } [cexQ3]).session = none :=
  (remediation_presence_guard
    { view := View.setup, session := none, completedSession := none,
      selectedAnswer := none, bookmarks := [], history := [],
      questionLibrary := [], lifetimeStats := none } [cexQ3]).1 rfl

/-! ### Claim C6: the export/import/export round trip -/

/-- A one-session history entry: ten questions, five correct, one hour. -/
def cexHist6 : HistoricalSession :=
  { dfltHist with
      id := "s1", timestamp := 100, totalQuestions := 10,
      correctAnswers := 5, timeTakenMs := 3600000 }

/-- A persisted state whose stored lifetime stats are stale: they do not
match the stats recomputed from the stored history. -/
def cexStore6 : Store :=
  { history := some [cexHist6], bookmarks := none, masteryCards := none,
    srsStates := none, questionLibrary := none, studyPlan := none,
    lifetimeStats := some
      { totalQuestions := 0, totalCorrect := 0, totalHours := 0,
        avgAccuracy := 0, firstSessionDate := 0 } }

/-- Counterexample to claim C6: exporting cexStore6, importing the
payload back, and exporting again changes the payload even at a frozen
clock, because the import recomputes the lifetime stats from the
history (total questions becomes 10) while the first export carried the
stale stored stats (total questions 0). -/
theorem export_import_export_not_roundtrip :
    backupAllData ((fullImport (getAllData cexStore6 0).2
        (AppData.toPayload (backupAllData cexStore6 0)) 0).1) 0
      ≠ backupAllData cexStore6 0 := fun hEq =>
  absurd (congrArg (fun d => d.lifetimeStats.totalQuestions) hEq) (by decide)

/-- Importing a payload in which every field is present overwrites every
slot and recomputes the lifetime stats from the payload history. -/
theorem fullImport_toPayload (base : Store) (d : AppData) (n : ℚ) :
    (fullImport base (AppData.toPayload d) n).1
      = { history := some d.history, bookmarks := some d.bookmarks,
          masteryCards := some d.masteryCards, srsStates := some d.srsStates,
          questionLibrary := some d.questionLibrary, studyPlan := d.studyPlan,
          lifetimeStats := some (updateAnalyticsStats d.history n) } := by
  simp [fullImport, AppData.toPayload, updateAnalyticsStore]

/-- The collections of an exported payload are the stored slots with
their defaults, whatever branch the stats migration takes. -/
theorem backupAllData_fields (st : Store) (n : ℚ) :
    (backupAllData st n).history = st.history.getD []
  ∧ (backupAllData st n).bookmarks = st.bookmarks.getD []
  ∧ (backupAllData st n).masteryCards = st.masteryCards.getD []
  ∧ (backupAllData st n).srsStates = st.srsStates.getD []
  ∧ (backupAllData st n).questionLibrary = st.questionLibrary.getD []
  ∧ (backupAllData st n).studyPlan = st.studyPlan := by
  cases hls : st.lifetimeStats with
  | some l =>
    refine ⟨?_, ?_, ?_, ?_, ?_, ?_⟩ <;> simp [backupAllData, getAllData, hls]
  | none =>
    by_cases he : (st.history.getD []).isEmpty
    · refine ⟨?_, ?_, ?_, ?_, ?_, ?_⟩ <;>
        simp [backupAllData, getAllData, hls, he]
    · refine ⟨?_, ?_, ?_, ?_, ?_, ?_⟩ <;>
        simp [backupAllData, getAllData, hls, he, updateAnalyticsStore]

/-- An export from a store with stats present carries those stats. -/
theorem backupAllData_stats_of_some (st : Store) (n : ℚ) (l : LifetimeStats)
    (h : st.lifetimeStats = some l) :
    (backupAllData st n).lifetimeStats = l := by
  simp [backupAllData, getAllData, h]

/-- Claim C6 amended: export, import, export always round-trips every
tracked collection except the lifetime stats; and the whole payload
round-trips if and only if the lifetime stats carried by the first
export equal the stats recomputed from the exported history at the
import-time clock. In particular stale stored stats break the round
trip, while an absent stats slot does not: the first export already
migrates them to the recompute, which for a non-empty history does not
depend on the clock. -/
theorem export_import_export_roundtrip_amended (st : Store) (n1 n2 n3 : ℚ) :
    (backupAllData ((fullImport (getAllData st n1).2
        (AppData.toPayload (backupAllData st n1)) n2).1) n3).history
      = (backupAllData st n1).history
  ∧ (backupAllData ((fullImport (getAllData st n1).2
        (AppData.toPayload (backupAllData st n1)) n2).1) n3).bookmarks
      = (backupAllData st n1).bookmarks
  ∧ (backupAllData ((fullImport (getAllData st n1).2
        (AppData.toPayload (backupAllData st n1)) n2).1) n3).masteryCards
      = (backupAllData st n1).masteryCards
  ∧ (backupAllData ((fullImport (getAllData st n1).2
        (AppData.toPayload (backupAllData st n1)) n2).1) n3).srsStates
      = (backupAllData st n1).srsStates
  ∧ (backupAllData ((fullImport (getAllData st n1).2
        (AppData.toPayload (backupAllData st n1)) n2).1) n3).questionLibrary
      = (backupAllData st n1).questionLibrary
  ∧ (backupAllData ((fullImport (getAllData st n1).2
        (AppData.toPayload (backupAllData st n1)) n2).1) n3).studyPlan
      = (backupAllData st n1).studyPlan
  ∧ (backupAllData ((fullImport (getAllData st n1).2
        (AppData.toPayload (backupAllData st n1)) n2).1) n3
        = backupAllData st n1
      ↔ (backupAllData st n1).lifetimeStats
          = updateAnalyticsStats ((backupAllData st n1).history) n2) := by
  rw [fullImport_toPayload]
  refine ⟨rfl, rfl, rfl, rfl, rfl, rfl, ?_, ?_⟩
  · intro hEq
    exact (congrArg (fun d => d.lifetimeStats) hEq).symm
  · intro hstats
    show ({ history := (backupAllData st n1).history,
            bookmarks := (backupAllData st n1).bookmarks,
            masteryCards := (backupAllData st n1).masteryCards,
            srsStates := (backupAllData st n1).srsStates,
            questionLibrary := (backupAllData st n1).questionLibrary,
            studyPlan := (backupAllData st n1).studyPlan,
            lifetimeStats :=
              updateAnalyticsStats ((backupAllData st n1).history) n2 } : AppData)
        = backupAllData st n1
    rw [← hstats]

/-- A store whose stored non-empty history matches its stored stats. -/
def cexStore6W : Store :=
  { history := some [cexHist6], bookmarks := none, masteryCards := none,
    srsStates := none, questionLibrary := none, studyPlan := none,
    lifetimeStats := some (updateAnalyticsStats [cexHist6] 7) }

/-- A store with a non-empty history and an absent lifetime-stats slot:
the migration inside the first export recomputes the stats, so the
round-trip condition of the amended C6 holds here too. -/
def cexStore6M : Store :=
  { history := some [cexHist6], bookmarks := none, masteryCards := none,
    srsStates := none, questionLibrary := none, studyPlan := none,
    lifetimeStats := none }

/-- Witness for the amended C6: the round-trip condition is discharged
concretely on two stores - one whose stored stats match its history
(export at time 1, import at time 7, export at time 9), and one whose
stats slot is absent so the first export migrates them (three distinct
clock values as well). -/
theorem export_import_export_roundtrip_amended_witness :
    (backupAllData ((fullImport (getAllData cexStore6W 1).2
        (AppData.toPayload (backupAllData cexStore6W 1)) 7).1) 9
      = backupAllData cexStore6W 1)
  ∧ (backupAllData ((fullImport (getAllData cexStore6M 1).2
        (AppData.toPayload (backupAllData cexStore6M 1)) 7).1) 9
      = backupAllData cexStore6M 1) :=
  ⟨((export_import_export_roundtrip_amended cexStore6W 1 7 9).2.2.2.2.2.2).mpr rfl,
   ((export_import_export_roundtrip_amended cexStore6M 1 7 9).2.2.2.2.2.2).mpr
     (by simp [backupAllData, getAllData, cexStore6M, updateAnalyticsStore,
               updateAnalyticsStats])⟩

end QuizApp
